import Mathlib

/-!
Shallow embedding of `multi-agent-patterns/coordinator.py`.

The Python module defines a `Subagent` class (one task, wall-clock timeout,
explicit `terminate`), a keyword `_classify_task` router, and a
`CoordinatorAgent` that dispatches to subagents and accumulates token usage.
Responses are JSON dictionaries; we model each dictionary shape as a
constructor of an inductive `Response`.

Time: `time.time()` yields a wall-clock instant; the only use is the
comparison `time.time() - self.start_time > timeout` at the start of
`execute`.  We model instants as natural numbers (the subtraction is
truncated, which agrees with Python's comparison whenever the clock did not
run backwards: a negative float difference and a truncated-to-zero Nat
difference both fail the `> timeout` test).

Python's `str.lower` maps each character to lower case; the keywords and
scenario inputs are ASCII, where `Char.toLower` agrees.  We spell the map
out over the character list (`lowerStr`) so that it is transparent to
reasoning.
-/

set_option maxRecDepth 8192

/-- Python `str.lower`, modelled character-by-character (ASCII-faithful). -/
def lowerStr (s : String) : String :=
  String.mk (s.data.map Char.toLower)

/-- Python `needle in haystack`: substring containment, over character
lists: some suffix of the haystack starts with the needle. -/
def containsSub (haystack needle : String) : Bool :=
  haystack.data.tails.any (fun t => needle.data.isPrefixOf t)

/-- One entry of `SUBAGENT_TEMPLATES` (coordinator.py lines 24-64). -/
structure SubagentTemplate where
  role : String
  context_files : List String
  data_sources : List String
  instructions : String
  max_tokens : Nat
deriving DecidableEq, Repr

def financeTemplate : SubagentTemplate :=
  { role := "Finance Specialist"
    context_files := ["rules/finance.md", "rules/reporting.md"]
    data_sources := ["transactions", "invoices"]
    instructions := "\n            You are a finance specialist agent.\n            - Use accrual accounting\n            - Report in USD\n            - Include pending items\n            - Format: structured data + brief summary\n        "
    max_tokens := 5000 }

def developerTemplate : SubagentTemplate :=
  { role := "Development Specialist"
    context_files := ["rules/code-style.md", "ARCHITECTURE.md"]
    data_sources := ["git_log", "open_issues"]
    instructions := "\n            You are a development specialist agent.\n            - Review code for patterns and quality\n            - Suggest improvements\n            - Check against style guide\n            - Format: technical summary + recommendations\n        "
    max_tokens := 8000 }

def contentTemplate : SubagentTemplate :=
  { role := "Content Specialist"
    context_files := ["brand-voice.md", "content-guidelines.md"]
    data_sources := ["recent_posts", "engagement_metrics"]
    instructions := "\n            You are a content specialist agent.\n            - Follow brand voice\n            - Optimize for engagement\n            - Keep it authentic\n            - Format: ready-to-publish content\n        "
    max_tokens := 4000 }

/-- The `SUBAGENT_TEMPLATES` dict, as an association list in source order. -/
def SUBAGENT_TEMPLATES : List (String × SubagentTemplate) :=
  [("finance", financeTemplate),
   ("developer", developerTemplate),
   ("content", contentTemplate)]

/-- Dict lookup `SUBAGENT_TEMPLATES[k]` / membership `k in SUBAGENT_TEMPLATES`. -/
def lookupTemplate (k : String) : Option SubagentTemplate :=
  (SUBAGENT_TEMPLATES.find? (fun p => p.1 == k)).map (fun p => p.2)

/-- The `SubagentContext` dataclass.  `data: Dict[str, Any]` only ever holds
the string placeholders produced by `_fetch_relevant_data`, so we model it as
an association list of strings. -/
structure SubagentContext where
  role : String
  task : String
  instructions : String
  data : List (String × String)
  max_tokens : Nat
deriving DecidableEq, Repr

/-- The dictionary returned by `Subagent._simulate_execution`. -/
structure ExecResult where
  role : String
  task : String
  result : String
  tokens_used : Nat
  completed : Bool
deriving DecidableEq, Repr

/-- The exceptions `execute` can raise and `_handle_with_subagent` catches:
`RuntimeError`, `TimeoutError`, and (for the `except Exception` arm) any
other exception. -/
inductive PyExc where
  | runtimeError (msg : String)
  | timeoutError (msg : String)
  | otherError (msg : String)
deriving DecidableEq, Repr

/-- Python `str(e)` on the modelled exceptions. -/
def PyExc.message : PyExc → String
  | .runtimeError m => m
  | .timeoutError m => m
  | .otherError m => m

/-- The `Subagent` object state: its context, the `time.time()` instant
stored at construction, and the termination flag.  `terminate_calls` is
ghost instrumentation — the "test double that counts terminate invocations"
of the resource-release property; it is written only by `terminate` and read
by no operation, so it does not alter behaviour. -/
structure Subagent where
  context : SubagentContext
  start_time : Nat
  is_terminated : Bool
  terminate_calls : Nat
deriving DecidableEq, Repr

/-- `Subagent.__init__`: store the context, record the creation instant,
clear the termination flag. -/
def Subagent.create (context : SubagentContext) (now : Nat) : Subagent :=
  { context := context, start_time := now, is_terminated := false,
    terminate_calls := 0 }

/-- `Subagent._simulate_execution` (lines 109-117). -/
def Subagent.simulate_execution (s : Subagent) : ExecResult :=
  { role := s.context.role
    task := s.context.task
    result := "[Simulated result for: " ++ s.context.task ++ "]"
    tokens_used := s.context.max_tokens / 2
    completed := true }

/-- `Subagent.execute(timeout)` (lines 94-107), called at instant `now`:
raise `RuntimeError` if terminated, raise `TimeoutError` if the wall-clock
time since creation exceeds the timeout, otherwise return the simulated
result.  The method never mutates `self`; we return the (unchanged) object
alongside the outcome to make call sequences explicit. -/
def Subagent.execute (s : Subagent) (now : Nat) (timeout : Nat) :
    Except PyExc ExecResult × Subagent :=
  if s.is_terminated then
    (.error (.runtimeError "Subagent already terminated"), s)
  else if now - s.start_time > timeout then
    (.error (.timeoutError ("Subagent exceeded " ++ toString timeout ++ "s timeout")), s)
  else
    (.ok s.simulate_execution, s)

/-- `Subagent.terminate` (lines 119-121): set the flag unconditionally
(and bump the ghost invocation counter). -/
def Subagent.terminate (s : Subagent) : Subagent :=
  { s with is_terminated := true, terminate_calls := s.terminate_calls + 1 }

/-- The JSON dictionaries `process_request` can return, one constructor per
distinct key set in the source (lines 184-188, 214-220, 223-226, 229-232,
241-246). -/
inductive Response where
  | simpleResult (handler response : String) (tokens_used : Nat)
  | specialistResult (handler role result : String) (tokens_used : Nat)
      (subagent_terminated : Bool)
  | timeoutErrorResult (error fallback : String)
  | executionErrorResult (error fallback : String)
  | unknownResult (handler response suggestion : String) (tokens_used : Nat)
deriving DecidableEq, Repr

/-- The `"handler"` key of a response dictionary, when present. -/
def Response.handlerLabel : Response → Option String
  | .simpleResult h _ _ => some h
  | .specialistResult h _ _ _ _ => some h
  | .unknownResult h _ _ _ => some h
  | .timeoutErrorResult _ _ => none
  | .executionErrorResult _ _ => none

/-- The `"tokens_used"` key of a response dictionary, when present. -/
def Response.tokensFigure : Response → Option Nat
  | .simpleResult _ _ t => some t
  | .specialistResult _ _ _ t _ => some t
  | .unknownResult _ _ _ t => some t
  | .timeoutErrorResult _ _ => none
  | .executionErrorResult _ _ => none

/-- The `"fallback"` key of a response dictionary, when present. -/
def Response.fallbackMsg : Response → Option String
  | .timeoutErrorResult _ f => some f
  | .executionErrorResult _ f => some f
  | _ => none

/-- Whether the response is one of the two error dictionaries. -/
def Response.isErr : Response → Bool
  | .timeoutErrorResult _ _ => true
  | .executionErrorResult _ _ => true
  | _ => false

/-- The `CoordinatorAgent` mutable state (lines 137-139). -/
structure CoordinatorAgent where
  context_size : Nat
  total_tokens_used : Nat
deriving DecidableEq, Repr

/-- `CoordinatorAgent.__init__`. -/
def CoordinatorAgent.init : CoordinatorAgent :=
  { context_size := 2048, total_tokens_used := 0 }

/-- The finance keyword list (line 164). -/
def finance_keywords : List String := ["revenue", "finance", "money", "profit"]

/-- The developer keyword list (line 167). -/
def developer_keywords : List String := ["code", "commit", "pr", "bug", "deploy"]

/-- The content keyword list (line 170). -/
def content_keywords : List String := ["tweet", "post", "content", "write"]

/-- The inline-greeting keyword list (line 173). -/
def simple_keywords : List String := ["hi", "hello", "help", "what can you"]

/-- Python `any(word in message_lower for word in keywords)`. -/
def kwHit (keywords : List String) (message_lower : String) : Bool :=
  keywords.any (fun word => containsSub message_lower word)

/-- `CoordinatorAgent._classify_task` (lines 159-177): case-insensitive
keyword containment, first match wins, in source order. -/
def classify_task (message : String) : String :=
  let message_lower := lowerStr message
  if kwHit finance_keywords message_lower then "finance"
  else if kwHit developer_keywords message_lower then "developer"
  else if kwHit content_keywords message_lower then "content"
  else if kwHit simple_keywords message_lower then "simple"
  else "unknown"

/-- `CoordinatorAgent._handle_simple_task` (lines 179-188). -/
def CoordinatorAgent.handle_simple_task (c : CoordinatorAgent)
    (message : String) : Response × CoordinatorAgent :=
  let c := { c with total_tokens_used := c.total_tokens_used + 100 }
  (.simpleResult "main_agent" ("Quick answer to: " ++ message)
      (c.context_size / 4 + 100), c)

/-- `CoordinatorAgent._handle_unknown_task` (lines 237-246). -/
def CoordinatorAgent.handle_unknown_task (c : CoordinatorAgent)
    (message : String) : Response × CoordinatorAgent :=
  let c := { c with total_tokens_used := c.total_tokens_used + 200 }
  (.unknownResult "main_agent" ("I'm not sure how to handle: " ++ message)
      "Try asking about finance, development, or content tasks"
      (c.context_size / 4 + 200), c)

/-- `CoordinatorAgent._fetch_relevant_data` (lines 248-257). -/
def fetch_relevant_data (sources : List String) : List (String × String) :=
  sources.map (fun source => (source, "[Sample data from " ++ source ++ "]"))

/-- The `try/except/except/finally` of `_handle_with_subagent`
(lines 207-235), as a function of the outcome of `subagent.execute`:
on success track the reported tokens and build the specialist dictionary;
on `TimeoutError` build the timeout dictionary; on any other exception build
the generic error dictionary; in every branch the `finally` clause runs
`subagent.terminate()`. -/
def CoordinatorAgent.handle_subagent_outcome (c : CoordinatorAgent)
    (agent_type : String) (template : SubagentTemplate) (subagent : Subagent)
    (outcome : Except PyExc ExecResult) :
    Response × CoordinatorAgent × Subagent :=
  match outcome with
  | .ok result =>
      let subagent_tokens := result.tokens_used
      let c := { c with total_tokens_used := c.total_tokens_used + subagent_tokens }
      (.specialistResult (agent_type ++ "_subagent") template.role result.result
          (c.context_size / 4 + subagent_tokens) true,
       c, subagent.terminate)
  | .error (.timeoutError _) =>
      (.timeoutErrorResult "Subagent timeout"
          "Task took too long, please try again or break into smaller steps",
       c, subagent.terminate)
  | .error e =>
      (.executionErrorResult e.message
          "Something went wrong, please rephrase or try again",
       c, subagent.terminate)

/-- `CoordinatorAgent._handle_with_subagent` (lines 190-235).  The caller
has already looked the template up (Python indexes the dict after the `in`
test in `process_request`).  `elapsed` is the wall-clock time between the
`Subagent(...)` construction and the `execute` call: the subagent is created
at instant `0` and executed at instant `elapsed` with `timeout=30`. -/
def CoordinatorAgent.handle_with_subagent (c : CoordinatorAgent)
    (agent_type : String) (template : SubagentTemplate) (task : String)
    (elapsed : Nat) : Response × CoordinatorAgent × Subagent :=
  let context : SubagentContext :=
    { role := template.role
      task := task
      instructions := template.instructions
      data := fetch_relevant_data template.data_sources
      max_tokens := template.max_tokens }
  let subagent := Subagent.create context 0
  let (outcome, subagent) := subagent.execute elapsed 30
  c.handle_subagent_outcome agent_type template subagent outcome

/-- `CoordinatorAgent.process_request` (lines 141-157): classify, charge the
base context cost (`context_size // 4`), and dispatch to the matching
handler.  `elapsed` parameterises the wall-clock gap inside a specialist
dispatch (unused on the other paths). -/
def CoordinatorAgent.process_request (c : CoordinatorAgent)
    (user_message : String) (elapsed : Nat) : Response × CoordinatorAgent :=
  let task_type := classify_task user_message
  let c := { c with total_tokens_used := c.total_tokens_used + c.context_size / 4 }
  if task_type == "simple" then
    c.handle_simple_task user_message
  else
    match lookupTemplate task_type with
    | some template =>
        let r := c.handle_with_subagent task_type template user_message elapsed
        (r.1, r.2.1)
    | none => c.handle_unknown_task user_message

/-- `CoordinatorAgent.get_stats` (lines 259-264); the estimated cost is
`total * 0.000005` dollars, i.e. `total * 5` micro-dollars — we report the
token count and the cost scaled to an integral unit. -/
def CoordinatorAgent.get_stats (c : CoordinatorAgent) : Nat × Nat :=
  (c.total_tokens_used, c.total_tokens_used * 5)

/-- A sequence of `process_request` calls, each given its own wall-clock
gap, threading the coordinator state. -/
def processAll (c : CoordinatorAgent) : List (String × Nat) → CoordinatorAgent
  | [] => c
  | call :: rest => processAll (c.process_request call.1 call.2).2 rest

/-! ### Shared helper definitions and lemmas -/

/-- A concrete context used to instantiate subagent-level statements. -/
def demoContext : SubagentContext :=
  { role := "Finance Specialist", task := "t", instructions := "", data := [],
    max_tokens := 5000 }

/-- A freshly created subagent over `demoContext`. -/
def demoSubagent : Subagent := Subagent.create demoContext 0

/-- Iterating `terminate` n+1 times sets the flag and bumps the ghost
counter n+1 times, touching nothing else. -/
lemma terminate_iterate_succ (n : Nat) (s : Subagent) :
    Subagent.terminate^[n + 1] s =
      { context := s.context, start_time := s.start_time, is_terminated := true,
        terminate_calls := s.terminate_calls + (n + 1) } := by
  induction n generalizing s with
  | zero => simp [Subagent.terminate]
  | succ n ih =>
      rw [Function.iterate_succ_apply, ih]
      simp [Subagent.terminate]
      omega

/-- The `finally` clause: whatever the outcome of `execute`, the subagent
returned by `handle_subagent_outcome` is `subagent.terminate`. -/
lemma handle_subagent_outcome_terminates (c : CoordinatorAgent)
    (agent_type : String) (template : SubagentTemplate) (subagent : Subagent)
    (outcome : Except PyExc ExecResult) :
    (c.handle_subagent_outcome agent_type template subagent outcome).2.2 =
      subagent.terminate := by
  rcases outcome with e | r
  · cases e <;> rfl
  · rfl

/-! ### C1: execute-at-most-once -/

/-- C1 counterexample: on a fresh subagent, `execute` succeeds, and — since
`execute` never marks the instance — a second `execute` call with no
intervening `terminate` succeeds again instead of failing with the
AlreadyTerminated error.  This refutes the claim that a second `execute`
after one prior call fails with AlreadyTerminated "whether or not terminate
was called in between". -/
theorem C1_counterexample :
    (demoSubagent.execute 0 30).1 = Except.ok demoSubagent.simulate_execution ∧
    (((demoSubagent.execute 0 30).2).execute 0 30).1 =
      Except.ok demoSubagent.simulate_execution ∧
    (((demoSubagent.execute 0 30).2).execute 0 30).1 ≠
      Except.error (PyExc.runtimeError "Subagent already terminated") := by
  refine ⟨rfl, rfl, fun hcontra => ?_⟩
  exact Except.noConfusion hcontra

/-- C1 amended: a call to `execute` fails with the AlreadyTerminated
`RuntimeError` exactly when the termination flag is set — in particular a
second `execute` after an intervening `terminate` fails — but `execute`
itself leaves the instance unchanged, so the Handler does not enforce the
executes-at-most-once invariant on its own. -/
theorem C1_execute_terminated_only (s : Subagent) (now timeout : Nat) :
    (s.is_terminated = true →
      (s.execute now timeout).1 =
        Except.error (PyExc.runtimeError "Subagent already terminated")) ∧
    (s.is_terminated = false →
      (s.execute now timeout).1 ≠
        Except.error (PyExc.runtimeError "Subagent already terminated")) ∧
    (((s.execute now timeout).2.terminate.execute now timeout).1 =
      Except.error (PyExc.runtimeError "Subagent already terminated")) ∧
    (s.execute now timeout).2 = s := by
  refine ⟨fun h => ?_, fun h => ?_, ?_, ?_⟩
  · simp [Subagent.execute, h]
  · simp only [Subagent.execute, h]
    split
    · simp_all
    · split <;> simp
  · have h2 : (s.execute now timeout).2 = s := by
      simp only [Subagent.execute]
      split <;> [rfl; skip]
      split <;> rfl
    rw [h2]
    simp [Subagent.execute, Subagent.terminate]
  · simp only [Subagent.execute]
    split <;> [rfl; skip]
    split <;> rfl

/-- C1 witness: the amended statement applied to a terminated concrete
subagent. -/
theorem C1_witness :
    demoSubagent.terminate.is_terminated = true ∧
    (demoSubagent.terminate.execute 0 30).1 =
      Except.error (PyExc.runtimeError "Subagent already terminated") :=
  ⟨by decide, (C1_execute_terminated_only demoSubagent.terminate 0 30).1 (by decide)⟩

/-! ### C8: terminate is idempotent and total -/

/-- C8: `terminate` is a total function of the subagent state (it cannot
raise), and calling it any number n ≥ 1 of times yields the same observable
object state — flag set, context and creation time untouched — as calling it
once. -/
theorem C8_terminate_idempotent (s : Subagent) (n : Nat) (h : 1 ≤ n) :
    (Subagent.terminate^[n] s).is_terminated = true ∧
    (Subagent.terminate^[n] s).is_terminated = s.terminate.is_terminated ∧
    (Subagent.terminate^[n] s).context = s.terminate.context ∧
    (Subagent.terminate^[n] s).start_time = s.terminate.start_time := by
  obtain ⟨m, rfl⟩ : ∃ m, n = m + 1 := ⟨n - 1, by omega⟩
  rw [terminate_iterate_succ]
  simp [Subagent.terminate]

/-- C8 witness: three consecutive `terminate` calls leave the flag exactly
as one call does. -/
theorem C8_witness :
    (Subagent.terminate^[3] demoSubagent).is_terminated = true ∧
    (Subagent.terminate^[3] demoSubagent).context = demoSubagent.terminate.context :=
  ⟨(C8_terminate_idempotent demoSubagent 3 (by decide)).1,
   (C8_terminate_idempotent demoSubagent 3 (by decide)).2.2.1⟩

/-! ### C2: terminate runs exactly once per dispatch -/

/-- C2: for every outcome of `execute` — success, Timeout, or any other
fault — the dispatch's `finally` clause calls `terminate` exactly once on the
created subagent (ghost invocation counter goes from 0 to 1) and leaves the
termination flag set; and the full `_handle_with_subagent` dispatch, which
creates a fresh subagent, always finishes with that subagent terminated
exactly once. -/
theorem C2_terminate_exactly_once :
    (∀ (c : CoordinatorAgent) (agent_type : String) (template : SubagentTemplate)
        (subagent : Subagent) (outcome : Except PyExc ExecResult),
      subagent.terminate_calls = 0 →
        ((c.handle_subagent_outcome agent_type template subagent outcome).2.2).terminate_calls = 1 ∧
        ((c.handle_subagent_outcome agent_type template subagent outcome).2.2).is_terminated = true) ∧
    (∀ (c : CoordinatorAgent) (agent_type : String) (template : SubagentTemplate)
        (task : String) (elapsed : Nat),
      ((c.handle_with_subagent agent_type template task elapsed).2.2).terminate_calls = 1 ∧
      ((c.handle_with_subagent agent_type template task elapsed).2.2).is_terminated = true) := by
  constructor
  · intro c agent_type template subagent outcome h
    rw [handle_subagent_outcome_terminates]
    simp [Subagent.terminate, h]
  · intro c agent_type template task elapsed
    simp only [CoordinatorAgent.handle_with_subagent]
    have hsub : ∀ ctx : SubagentContext, ∀ now t : Nat,
        ((Subagent.create ctx 0).execute now t).2 = Subagent.create ctx 0 := by
      intro ctx now t
      simp only [Subagent.execute, Subagent.create]
      split <;> [rfl; skip]
      split <;> rfl
    rw [handle_subagent_outcome_terminates, hsub]
    simp [Subagent.terminate, Subagent.create]

/-- C2 witness: the outcome-level statement exercised on the
"any other fault" branch with a fresh subagent, and the full dispatch at a
concrete template and task. -/
theorem C2_witness :
    ((CoordinatorAgent.init.handle_subagent_outcome "finance" financeTemplate
        demoSubagent (Except.error (PyExc.otherError "boom"))).2.2).terminate_calls = 1 ∧
    ((CoordinatorAgent.init.handle_with_subagent "finance" financeTemplate
        "Calculate Q1 revenue" 0).2.2).terminate_calls = 1 :=
  ⟨(C2_terminate_exactly_once.1 CoordinatorAgent.init "finance" financeTemplate
      demoSubagent (Except.error (PyExc.otherError "boom")) (by decide)).1,
   (C2_terminate_exactly_once.2 CoordinatorAgent.init "finance" financeTemplate
      "Calculate Q1 revenue" 0).1⟩

/-! ### C3: response fields -/

/-- C3 counterexample: the response produced by a timed-out specialist
dispatch (`process` of a finance request with a 31-second wall-clock gap) is
the TimeoutError dictionary, and it carries neither a handler label nor a
token-usage figure — refuting the claim that every Response returned by
process, error variants included, carries both. -/
theorem C3_counterexample :
    ((CoordinatorAgent.init.process_request "Calculate Q1 revenue" 31).1).isErr = true ∧
    ((CoordinatorAgent.init.process_request "Calculate Q1 revenue" 31).1).handlerLabel = none ∧
    ((CoordinatorAgent.init.process_request "Calculate Q1 revenue" 31).1).tokensFigure = none := by
  refine ⟨rfl, rfl, rfl⟩

/-- C3 amended: every non-error Response returned by process carries a
handler label and a token-usage figure; the TimeoutError and ExecutionError
variants instead carry a fallback message (and an error message) and no
handler label or token figure. -/
theorem C3_response_fields (c : CoordinatorAgent) (msg : String) (elapsed : Nat) :
    (((c.process_request msg elapsed).1).isErr = false →
      ((c.process_request msg elapsed).1).handlerLabel.isSome = true ∧
      ((c.process_request msg elapsed).1).tokensFigure.isSome = true) ∧
    (((c.process_request msg elapsed).1).isErr = true →
      ((c.process_request msg elapsed).1).handlerLabel = none ∧
      ((c.process_request msg elapsed).1).tokensFigure = none ∧
      ((c.process_request msg elapsed).1).fallbackMsg.isSome = true) := by
  cases h : (c.process_request msg elapsed).1 <;>
    simp [Response.isErr, Response.handlerLabel, Response.tokensFigure,
      Response.fallbackMsg]

/-- C3 witness: the amended statement applied to a concrete inline call
(non-error arm) and the concrete timed-out call (error arm). -/
theorem C3_witness :
    ((CoordinatorAgent.init.process_request "Hi, what can you help with?" 0).1).handlerLabel.isSome = true ∧
    ((CoordinatorAgent.init.process_request "Calculate Q1 revenue" 31).1).fallbackMsg.isSome = true :=
  ⟨((C3_response_fields CoordinatorAgent.init "Hi, what can you help with?" 0).1 (by rfl)).1,
   ((C3_response_fields CoordinatorAgent.init "Calculate Q1 revenue" 31).2 (by rfl)).2.2⟩

/-! ### Classifier case lemmas -/

lemma classify_eq_finance (msg : String)
    (h : kwHit finance_keywords (lowerStr msg) = true) :
    classify_task msg = "finance" := by
  simp [classify_task, h]

lemma classify_eq_developer (msg : String)
    (h1 : kwHit finance_keywords (lowerStr msg) = false)
    (h2 : kwHit developer_keywords (lowerStr msg) = true) :
    classify_task msg = "developer" := by
  simp [classify_task, h1, h2]

lemma classify_eq_content (msg : String)
    (h1 : kwHit finance_keywords (lowerStr msg) = false)
    (h2 : kwHit developer_keywords (lowerStr msg) = false)
    (h3 : kwHit content_keywords (lowerStr msg) = true) :
    classify_task msg = "content" := by
  simp [classify_task, h1, h2, h3]

lemma classify_eq_simple (msg : String)
    (h1 : kwHit finance_keywords (lowerStr msg) = false)
    (h2 : kwHit developer_keywords (lowerStr msg) = false)
    (h3 : kwHit content_keywords (lowerStr msg) = false)
    (h4 : kwHit simple_keywords (lowerStr msg) = true) :
    classify_task msg = "simple" := by
  simp [classify_task, h1, h2, h3, h4]

lemma classify_eq_unknown (msg : String)
    (h1 : kwHit finance_keywords (lowerStr msg) = false)
    (h2 : kwHit developer_keywords (lowerStr msg) = false)
    (h3 : kwHit content_keywords (lowerStr msg) = false)
    (h4 : kwHit simple_keywords (lowerStr msg) = false) :
    classify_task msg = "unknown" := by
  simp [classify_task, h1, h2, h3, h4]

/-- Totality: the classifier always lands in one of the five categories. -/
lemma classify_mem_five (msg : String) :
    classify_task msg = "finance" ∨ classify_task msg = "developer" ∨
    classify_task msg = "content" ∨ classify_task msg = "simple" ∨
    classify_task msg = "unknown" := by
  cases h1 : kwHit finance_keywords (lowerStr msg)
  · cases h2 : kwHit developer_keywords (lowerStr msg)
    · cases h3 : kwHit content_keywords (lowerStr msg)
      · cases h4 : kwHit simple_keywords (lowerStr msg)
        · exact Or.inr (Or.inr (Or.inr (Or.inr (classify_eq_unknown msg h1 h2 h3 h4))))
        · exact Or.inr (Or.inr (Or.inr (Or.inl (classify_eq_simple msg h1 h2 h3 h4))))
      · exact Or.inr (Or.inr (Or.inl (classify_eq_content msg h1 h2 h3)))
    · exact Or.inr (Or.inl (classify_eq_developer msg h1 h2))
  · exact Or.inl (classify_eq_finance msg h1)

/-! ### C4: classifier priority, totality, case-insensitivity -/

/-- C4: `_classify_task` is case-insensitive (it depends only on the
lowercased message), tests the keyword sets in the fixed priority order
finance, developer, content, inline-greeting ("simple") with the first
match winning — so a message hitting two keyword sets is routed to the
earlier-priority one — yields "unknown" exactly when no set matches, and is
total: it always returns one of these five categories. -/
theorem C4_classifier_priority :
    (∀ m1 m2 : String, lowerStr m1 = lowerStr m2 →
      classify_task m1 = classify_task m2) ∧
    (∀ msg : String, kwHit finance_keywords (lowerStr msg) = true →
      classify_task msg = "finance") ∧
    (∀ msg : String, kwHit finance_keywords (lowerStr msg) = false →
      kwHit developer_keywords (lowerStr msg) = true →
      classify_task msg = "developer") ∧
    (∀ msg : String, kwHit finance_keywords (lowerStr msg) = false →
      kwHit developer_keywords (lowerStr msg) = false →
      kwHit content_keywords (lowerStr msg) = true →
      classify_task msg = "content") ∧
    (∀ msg : String, kwHit finance_keywords (lowerStr msg) = false →
      kwHit developer_keywords (lowerStr msg) = false →
      kwHit content_keywords (lowerStr msg) = false →
      kwHit simple_keywords (lowerStr msg) = true →
      classify_task msg = "simple") ∧
    (∀ msg : String, kwHit finance_keywords (lowerStr msg) = false →
      kwHit developer_keywords (lowerStr msg) = false →
      kwHit content_keywords (lowerStr msg) = false →
      kwHit simple_keywords (lowerStr msg) = false →
      classify_task msg = "unknown") ∧
    (∀ msg : String, classify_task msg = "finance" ∨
      classify_task msg = "developer" ∨ classify_task msg = "content" ∨
      classify_task msg = "simple" ∨ classify_task msg = "unknown") := by
  refine ⟨fun m1 m2 h => ?_, classify_eq_finance, classify_eq_developer,
    classify_eq_content, classify_eq_simple, classify_eq_unknown,
    classify_mem_five⟩
  simp only [classify_task, h]

/-- C4 witness: "commit revenue" hits both the finance keyword "revenue" and
the developer keyword "commit"; the earlier-priority finance wins.  An
upper-case variant classifies identically, and an unmatched text yields
"unknown". -/
theorem C4_witness :
    classify_task "commit revenue" = "finance" ∧
    classify_task "COMMIT REVENUE" = classify_task "commit revenue" ∧
    classify_task "asdkjasd random text" = "unknown" := by
  obtain ⟨hci, hfin, -, -, -, hunk, -⟩ := C4_classifier_priority
  exact ⟨hfin "commit revenue" (by decide),
    hci "COMMIT REVENUE" "commit revenue" (by decide),
    hunk "asdkjasd random text" (by decide) (by decide) (by decide) (by decide)⟩

/-! ### C10: raw substring matching -/

/-- Substring containment holds whenever the needle is an infix of the
haystack's character list. -/
lemma containsSub_of_infix (haystack needle : String)
    (h : needle.data <:+: haystack.data) : containsSub haystack needle = true := by
  obtain ⟨t, hpre, hsuf⟩ := List.infix_iff_prefix_suffix.1 h
  refine List.any_eq_true.2 ⟨t, ?_, ?_⟩
  · exact (List.mem_tails t haystack.data).2 hsuf
  · exact List.isPrefixOf_iff_prefix.2 hpre

/-- Lowercasing distributes over string append. -/
lemma lowerStr_append (a b : String) :
    lowerStr (a ++ b) = lowerStr a ++ lowerStr b := by
  apply String.ext
  simp [lowerStr]

/-- A keyword that is already lower case occurs as a substring of the
lowercased message whenever it occurs verbatim between any two strings. -/
lemma containsSub_lower_embed (pre word suf : String)
    (hw : lowerStr word = word) :
    containsSub (lowerStr (pre ++ word ++ suf)) word = true := by
  apply containsSub_of_infix
  rw [lowerStr_append, lowerStr_append, hw]
  rw [String.data_append, String.data_append]
  exact List.infix_append _ _ _

/-- C10: keyword matching is raw substring containment on the lowercased
message, not whole-word matching.  For any surrounding text: a message of
shape `pre ++ "pr" ++ suf` (the developer keyword "pr" embedded anywhere,
e.g. inside "price") that hits no finance keyword classifies as
"developer"; a message of shape `pre ++ "hi" ++ suf` (the greeting keyword
"hi" embedded anywhere, e.g. inside "this") that hits no earlier-priority
keyword classifies as "simple"; concretely, "price" routes to developer and
"this" to the inline-greeting category rather than "unknown". -/
theorem C10_substring_matching :
    (∀ pre suf : String,
      kwHit finance_keywords (lowerStr (pre ++ "pr" ++ suf)) = false →
      classify_task (pre ++ "pr" ++ suf) = "developer") ∧
    (∀ pre suf : String,
      kwHit finance_keywords (lowerStr (pre ++ "hi" ++ suf)) = false →
      kwHit developer_keywords (lowerStr (pre ++ "hi" ++ suf)) = false →
      kwHit content_keywords (lowerStr (pre ++ "hi" ++ suf)) = false →
      classify_task (pre ++ "hi" ++ suf) = "simple") ∧
    classify_task "price" = "developer" ∧
    classify_task "this" = "simple" := by
  refine ⟨fun pre suf hfin => ?_, fun pre suf hfin hdev hcon => ?_, by decide, by decide⟩
  · refine classify_eq_developer _ hfin (List.any_eq_true.2 ⟨"pr", ?_, ?_⟩)
    · decide
    · exact containsSub_lower_embed pre "pr" suf (by decide)
  · refine classify_eq_simple _ hfin hdev hcon (List.any_eq_true.2 ⟨"hi", ?_, ?_⟩)
    · decide
    · exact containsSub_lower_embed pre "hi" suf (by decide)

/-- C10 witness: the embedded-keyword statement applied at concrete
surroundings producing "price" and "this". -/
theorem C10_witness :
    classify_task ("" ++ "pr" ++ "ice") = "developer" ∧
    classify_task ("t" ++ "hi" ++ "s") = "simple" :=
  ⟨C10_substring_matching.1 "" "ice" (by decide),
   C10_substring_matching.2.1 "t" "s" (by decide) (by decide) (by decide)⟩

/-! ### Dispatch equation and per-call accounting -/

/-- The `SubagentContext(...)` built by `_handle_with_subagent`. -/
def dispatchContext (template : SubagentTemplate) (task : String) : SubagentContext :=
  { role := template.role
    task := task
    instructions := template.instructions
    data := fetch_relevant_data template.data_sources
    max_tokens := template.max_tokens }

/-- The subagent state a dispatch leaves behind: created at instant 0,
terminated exactly once. -/
def dispatchedSubagent (template : SubagentTemplate) (task : String) : Subagent :=
  { context := dispatchContext template task, start_time := 0,
    is_terminated := true, terminate_calls := 1 }

/-- Closed-form evaluation of `_handle_with_subagent`: within the timeout
the dispatch succeeds, charging `max_tokens / 2` and answering the
specialist dictionary; past it, the TimeoutError dictionary with no charge.
Either way the subagent ends terminated once. -/
lemma handle_with_subagent_eq (c : CoordinatorAgent) (agent_type : String)
    (template : SubagentTemplate) (task : String) (elapsed : Nat) :
    c.handle_with_subagent agent_type template task elapsed =
      if elapsed ≤ 30 then
        (Response.specialistResult (agent_type ++ "_subagent") template.role
            ("[Simulated result for: " ++ task ++ "]")
            (c.context_size / 4 + template.max_tokens / 2) true,
         { c with total_tokens_used := c.total_tokens_used + template.max_tokens / 2 },
         dispatchedSubagent template task)
      else
        (Response.timeoutErrorResult "Subagent timeout"
            "Task took too long, please try again or break into smaller steps",
         c, dispatchedSubagent template task) := by
  by_cases h : elapsed ≤ 30
  · have hno : ¬(30 < elapsed) := by omega
    simp [CoordinatorAgent.handle_with_subagent, Subagent.create, Subagent.execute,
      Subagent.simulate_execution, CoordinatorAgent.handle_subagent_outcome,
      Subagent.terminate, dispatchedSubagent, dispatchContext, h, hno]
  · have hyes : 30 < elapsed := by omega
    simp [CoordinatorAgent.handle_with_subagent, Subagent.create, Subagent.execute,
      Subagent.simulate_execution, CoordinatorAgent.handle_subagent_outcome,
      Subagent.terminate, dispatchedSubagent, dispatchContext, h, hyes]

/-- Per-call charge beyond the base cost, as the specification's §4.4
schedule states it branch by branch: 100 on the inline path, 200 on the
unknown path, the handler's reported tokens-used (half the profile budget)
on specialist success, nothing on the error paths. -/
def perCallExtra (msg : String) (elapsed : Nat) : Nat :=
  if classify_task msg = "simple" then 100
  else
    match lookupTemplate (classify_task msg) with
    | some template => if elapsed ≤ 30 then template.max_tokens / 2 else 0
    | none => 200

/-- Per-call charge as the specification states it: base 512 on every call
plus the branch extra. -/
def perCallCharge (msg : String) (elapsed : Nat) : Nat :=
  512 + perCallExtra msg elapsed

/-- One `process_request` call preserves `context_size` and adds exactly the
base cost plus the branch extra to the cumulative counter. -/
lemma process_request_total (c : CoordinatorAgent) (msg : String) (elapsed : Nat) :
    ((c.process_request msg elapsed).2).context_size = c.context_size ∧
    ((c.process_request msg elapsed).2).total_tokens_used
      = c.total_tokens_used + c.context_size / 4 + perCallExtra msg elapsed := by
  rcases classify_mem_five msg with hcl | hcl | hcl | hcl | hcl
  · have hl : lookupTemplate "finance" = some financeTemplate := by decide
    by_cases h30 : elapsed ≤ 30 <;>
      simp [CoordinatorAgent.process_request, hcl, hl, handle_with_subagent_eq,
        h30, perCallExtra]
  · have hl : lookupTemplate "developer" = some developerTemplate := by decide
    by_cases h30 : elapsed ≤ 30 <;>
      simp [CoordinatorAgent.process_request, hcl, hl, handle_with_subagent_eq,
        h30, perCallExtra]
  · have hl : lookupTemplate "content" = some contentTemplate := by decide
    by_cases h30 : elapsed ≤ 30 <;>
      simp [CoordinatorAgent.process_request, hcl, hl, handle_with_subagent_eq,
        h30, perCallExtra]
  · simp [CoordinatorAgent.process_request, hcl, CoordinatorAgent.handle_simple_task,
      perCallExtra]
  · have hl : lookupTemplate "unknown" = none := by decide
    simp [CoordinatorAgent.process_request, hcl, hl,
      CoordinatorAgent.handle_unknown_task, perCallExtra]

/-- Cumulative total over a call sequence on a coordinator with the
reference context size. -/
lemma processAll_total (calls : List (String × Nat)) :
    ∀ c : CoordinatorAgent, c.context_size = 2048 →
      (processAll c calls).total_tokens_used
        = c.total_tokens_used + (calls.map (fun p => perCallCharge p.1 p.2)).sum := by
  induction calls with
  | nil => intro c _; simp [processAll]
  | cons p rest ih =>
      intro c hcs
      obtain ⟨h1, h2⟩ := process_request_total c p.1 p.2
      simp only [processAll, List.map_cons, List.sum_cons]
      rw [ih _ (h1.trans hcs), h2, hcs]
      simp [perCallCharge]
      omega

/-! ### C6: monotonic token accounting -/

/-- C6: the cumulative token counter never decreases across a call, and
after any sequence of calls on a fresh coordinator, `get_stats` reports
cumulative tokens equal to the sum of the specification's per-call charges
(base 512 every call, plus 100 inline / 200 unknown / the handler's
reported tokens-used on specialist success, nothing extra on the error
branches). -/
theorem C6_token_accounting :
    (∀ (c : CoordinatorAgent) (msg : String) (elapsed : Nat),
      c.total_tokens_used ≤ ((c.process_request msg elapsed).2).total_tokens_used) ∧
    (∀ calls : List (String × Nat),
      ((processAll CoordinatorAgent.init calls).get_stats).1
        = (calls.map (fun p => perCallCharge p.1 p.2)).sum) := by
  constructor
  · intro c msg elapsed
    have h := (process_request_total c msg elapsed).2
    omega
  · intro calls
    have h := processAll_total calls CoordinatorAgent.init rfl
    simpa [CoordinatorAgent.get_stats, CoordinatorAgent.init] using h

/-! ### C9: response figure equals counter increase -/

/-- C9: on every non-error branch of `process` (inline, unknown, specialist
success), the token figure embedded in the returned Response equals exactly
the amount the cumulative counter grew during the call. -/
theorem C9_figure_matches_delta (c : CoordinatorAgent) (msg : String)
    (elapsed : Nat) (h : ((c.process_request msg elapsed).1).isErr = false) :
    ((c.process_request msg elapsed).1).tokensFigure
      = some (((c.process_request msg elapsed).2).total_tokens_used
              - c.total_tokens_used) := by
  rcases classify_mem_five msg with hcl | hcl | hcl | hcl | hcl
  · have hl : lookupTemplate "finance" = some financeTemplate := by decide
    by_cases h30 : elapsed ≤ 30
    · simp [CoordinatorAgent.process_request, hcl, hl, handle_with_subagent_eq,
        h30, Response.tokensFigure]
      omega
    · simp [CoordinatorAgent.process_request, hcl, hl, handle_with_subagent_eq,
        h30, Response.isErr] at h
  · have hl : lookupTemplate "developer" = some developerTemplate := by decide
    by_cases h30 : elapsed ≤ 30
    · simp [CoordinatorAgent.process_request, hcl, hl, handle_with_subagent_eq,
        h30, Response.tokensFigure]
      omega
    · simp [CoordinatorAgent.process_request, hcl, hl, handle_with_subagent_eq,
        h30, Response.isErr] at h
  · have hl : lookupTemplate "content" = some contentTemplate := by decide
    by_cases h30 : elapsed ≤ 30
    · simp [CoordinatorAgent.process_request, hcl, hl, handle_with_subagent_eq,
        h30, Response.tokensFigure]
      omega
    · simp [CoordinatorAgent.process_request, hcl, hl, handle_with_subagent_eq,
        h30, Response.isErr] at h
  · simp [CoordinatorAgent.process_request, hcl,
      CoordinatorAgent.handle_simple_task, Response.tokensFigure]
    omega
  · have hl : lookupTemplate "unknown" = none := by decide
    simp [CoordinatorAgent.process_request, hcl, hl,
      CoordinatorAgent.handle_unknown_task, Response.tokensFigure]
    omega

/-- C9 witness: the inline call's figure (612) is exactly the counter
increase on a fresh coordinator. -/
theorem C9_witness :
    ((CoordinatorAgent.init.process_request "Hi, what can you help with?" 0).1).tokensFigure
      = some 612 := by
  have h := C9_figure_matches_delta CoordinatorAgent.init
    "Hi, what can you help with?" 0 (by rfl)
  rw [h]
  rfl

/-! ### C5: timeout path -/

/-- A category the registry resolves is a specialist category, hence not
the inline one. -/
lemma lookup_some_not_simple (cat : String) (tpl : SubagentTemplate)
    (h : lookupTemplate cat = some tpl) : (cat == "simple") = false := by
  by_cases hc : cat = "simple"
  · subst hc
    rw [show lookupTemplate "simple" = none from by decide] at h
    exact Option.noConfusion h
  · exact beq_false_of_ne hc

/-- C5: `execute` on a non-terminated subagent whose wall-clock age exceeds
the timeout fails with the TimeoutError (before any work: the check guards
the simulated execution); and on a specialist-classified request with a
wall-clock gap over 30 seconds, `process` returns the TimeoutError Response
with message "Subagent timeout" and the fallback guidance, charging only
the base cost to the counters. -/
theorem C5_timeout_path :
    (∀ (s : Subagent) (now timeout : Nat), s.is_terminated = false →
      now - s.start_time > timeout →
      (s.execute now timeout).1 = Except.error (PyExc.timeoutError
        ("Subagent exceeded " ++ toString timeout ++ "s timeout"))) ∧
    (∀ (c : CoordinatorAgent) (task : String) (elapsed : Nat),
      (lookupTemplate (classify_task task)).isSome = true → elapsed > 30 →
      (c.process_request task elapsed).1
          = Response.timeoutErrorResult "Subagent timeout"
              "Task took too long, please try again or break into smaller steps" ∧
      ((c.process_request task elapsed).2).total_tokens_used
          = c.total_tokens_used + c.context_size / 4) := by
  constructor
  · intro s now timeout h1 h2
    simp [Subagent.execute, h1, h2]
  · intro c task elapsed hsome h30
    cases hl : lookupTemplate (classify_task task) with
    | none => rw [hl] at hsome; simp at hsome
    | some tpl =>
        have hb := lookup_some_not_simple _ _ hl
        have hno : ¬ elapsed ≤ 30 := by omega
        constructor <;>
          simp [CoordinatorAgent.process_request, hb, hl,
            handle_with_subagent_eq, hno]

/-- C5 witness: a fresh subagent executed 31 seconds after creation with
a 30-second timeout, and the coordinator-level timed-out finance dispatch. -/
theorem C5_witness :
    (demoSubagent.execute 31 30).1 = Except.error (PyExc.timeoutError
      ("Subagent exceeded " ++ toString 30 ++ "s timeout")) ∧
    (CoordinatorAgent.init.process_request "Calculate Q1 revenue" 31).1
      = Response.timeoutErrorResult "Subagent timeout"
          "Task took too long, please try again or break into smaller steps" ∧
    ((CoordinatorAgent.init.process_request "Calculate Q1 revenue" 31).2).total_tokens_used
      = 512 :=
  ⟨C5_timeout_path.1 demoSubagent 31 30 (by decide) (by decide),
   (C5_timeout_path.2 CoordinatorAgent.init "Calculate Q1 revenue" 31
      (by decide) (by decide)).1,
   (C5_timeout_path.2 CoordinatorAgent.init "Calculate Q1 revenue" 31
      (by decide) (by decide)).2⟩

/-! ### C7: the finance scenario -/

/-- C7: processing "Calculate Q1 revenue" on a fresh coordinator (with the
dispatch inside its 30-second timeout) classifies as finance, consumes half
the finance budget (5000 / 2 = 2500) as the handler's reported tokens, and
returns the SpecialistResult labelled "finance_subagent" with token figure
512 + 2500 = 3012. -/
theorem C7_finance_scenario (elapsed : Nat) (h : elapsed ≤ 30) :
    classify_task "Calculate Q1 revenue" = "finance" ∧
    financeTemplate.max_tokens / 2 = 2500 ∧
    CoordinatorAgent.init.process_request "Calculate Q1 revenue" elapsed
      = (Response.specialistResult "finance_subagent" "Finance Specialist"
            "[Simulated result for: Calculate Q1 revenue]" 3012 true,
         { context_size := 2048, total_tokens_used := 3012 }) := by
  have hcl : classify_task "Calculate Q1 revenue" = "finance" := by decide
  have hl : lookupTemplate "finance" = some financeTemplate := by decide
  refine ⟨hcl, by decide, ?_⟩
  simp [CoordinatorAgent.process_request, hcl, hl, handle_with_subagent_eq, h,
    CoordinatorAgent.init, financeTemplate]

/-- C7 witness: the scenario at a zero wall-clock gap. -/
theorem C7_witness :
    CoordinatorAgent.init.process_request "Calculate Q1 revenue" 0
      = (Response.specialistResult "finance_subagent" "Finance Specialist"
            "[Simulated result for: Calculate Q1 revenue]" 3012 true,
         { context_size := 2048, total_tokens_used := 3012 }) :=
  (C7_finance_scenario 0 (by decide)).2.2
